import Mathlib

/-!
Verification of the GIM6010 CAN diagnostic client.

The Python source (`GIM_diag.py`) is shallowly embedded below.  Transport
interaction is modelled by an explicit event stream: each receive call of the
underlying bus yields a pair `(dt, r)` where `dt` is the time (in whole
seconds) the receive call took and `r` is the frame it returned (`none` for a
per-call receive timeout).  Time is tracked explicitly in whole seconds; a
Python runtime exception raised while decoding a payload (IndexError or
struct.error on short data) is modelled as `Except.error PyErr.malformedPayload`.
-/

/-- A CAN frame as built or received by the client: arbitration id, payload
bytes, and the extended-identifier flag. -/
structure Msg where
  arbitration_id : Nat
  data : List Nat
  extended : Bool
  deriving DecidableEq, Repr

/-- One transport receive outcome: the time the receive call took and the
frame it delivered (`none` models a per-call receive timeout). -/
abbrev Event := Nat × Option Msg

/-- Total duration of a list of receive events. -/
def sumDt (s : List Event) : Nat := (s.map Prod.fst).sum

@[simp] theorem sumDt_nil : sumDt [] = 0 := rfl

@[simp] theorem sumDt_cons (ev : Event) (s : List Event) :
    sumDt (ev :: s) = ev.1 + sumDt s := by
  simp [sumDt]

@[simp] theorem sumDt_append (s t : List Event) :
    sumDt (s ++ t) = sumDt s + sumDt t := by
  simp [sumDt]

/-- Arbitration id computed by the client for a node and command:
`can_id = (self.node_id << 5) | cmd_id`. -/
def arbId (node cmd_id : Nat) : Nat := (node <<< 5) ||| cmd_id

/-- The client-visible world: the current clock, the stream of pending
receive events, and the log of frames sent so far. -/
structure World where
  now : Nat
  stream : List Event
  sent : List Msg
  deriving DecidableEq, Repr

/-- Python runtime failures raised while decoding a matched frame whose
payload is shorter than the accessed field widths. -/
inductive PyErr where
  | malformedPayload
  deriving DecidableEq, Repr

/-- `send_command`: builds the frame with id `(node_id << 5) | cmd_id`,
substituting eight zero bytes when no payload is given, and transmits it as a
non-extended frame. -/
def send_command (node cmd_id : Nat) (data : Option (List Nat)) (w : World) : World :=
  let can_id := arbId node cmd_id
  let d := match data with
    | none => List.replicate 8 0
    | some d => d
  { w with sent := w.sent ++ [⟨can_id, d, false⟩] }

/-- The receive loop of `wait_for_message`: while the elapsed time is below
`timeout`, take the next receive outcome; return the frame as soon as its
arbitration id matches, discard it otherwise.  An exhausted stream stands for
a bus with no further traffic, on which every receive call times out after one
second, so the loop exits exactly when the deadline is reached. -/
def waitLoop (can_id timeout : Nat) (elapsed : Nat) :
    List Event → Option Msg × Nat × List Event
  | [] => (none, max elapsed timeout, [])
  | (dt, r) :: rest =>
    if elapsed < timeout then
      match r with
      | some msg =>
        if msg.arbitration_id = can_id then (some msg, elapsed + dt, rest)
        else waitLoop can_id timeout (elapsed + dt) rest
      | none => waitLoop can_id timeout (elapsed + dt) rest
    else (none, elapsed, (dt, r) :: rest)

/-- `wait_for_message`: timeout-bounded wait for the next frame whose
arbitration id is `(node_id << 5) | cmd_id`.  Returns the frame found (or
`none` on timeout), the duration of the whole wait, and the unconsumed rest
of the stream. -/
def wait_for_message (node cmd_id timeout : Nat) (s : List Event) :
    Option Msg × Nat × List Event :=
  waitLoop (arbId node cmd_id) timeout 0 s

theorem waitLoop_matches (can_id timeout : Nat) :
    ∀ (s : List Event) (elapsed : Nat) (m : Msg) (d : Nat) (s2 : List Event),
      waitLoop can_id timeout elapsed s = (some m, d, s2) →
      m.arbitration_id = can_id := by
  intro s
  induction s with
  | nil =>
    intro e m d s2 h
    simp [waitLoop] at h
  | cons ev rest ih =>
    intro e m d s2 h
    obtain ⟨dt, r⟩ := ev
    by_cases he : e < timeout
    · cases r with
      | none =>
        simp only [waitLoop, if_pos he] at h
        exact ih _ _ _ _ h
      | some msg =>
        by_cases hm : msg.arbitration_id = can_id
        · simp only [waitLoop, if_pos he, if_pos hm, Prod.mk.injEq] at h
          obtain ⟨h1, -⟩ := h
          injection h1 with h1
          rw [← h1]
          exact hm
        · simp only [waitLoop, if_pos he, if_neg hm] at h
          exact ih _ _ _ _ h
    · simp [waitLoop, if_neg he] at h

theorem waitLoop_no_match (can_id timeout : Nat) :
    ∀ (s : List Event) (elapsed : Nat),
      (∀ dt m, (dt, some m) ∈ s → m.arbitration_id ≠ can_id) →
      (waitLoop can_id timeout elapsed s).1 = none := by
  intro s
  induction s with
  | nil => intro e _; simp [waitLoop]
  | cons ev rest ih =>
    intro e hs
    obtain ⟨dt, r⟩ := ev
    by_cases he : e < timeout
    · cases r with
      | none =>
        simp only [waitLoop, if_pos he]
        exact ih _ (fun dt0 m0 hmem => hs dt0 m0 (List.mem_cons_of_mem _ hmem))
      | some msg =>
        have hm : msg.arbitration_id ≠ can_id := hs dt msg (List.mem_cons_self _ _)
        simp only [waitLoop, if_pos he, if_neg hm]
        exact ih _ (fun dt0 m0 hmem => hs dt0 m0 (List.mem_cons_of_mem _ hmem))
    · simp [waitLoop, if_neg he]

theorem waitLoop_finds_first (can_id timeout : Nat) :
    ∀ (pre : List Event) (elapsed dt : Nat) (m : Msg) (rest : List Event),
      (∀ dt0 m0, (dt0, some m0) ∈ pre → m0.arbitration_id ≠ can_id) →
      m.arbitration_id = can_id →
      elapsed + sumDt pre < timeout →
      waitLoop can_id timeout elapsed (pre ++ (dt, some m) :: rest) =
        (some m, elapsed + sumDt pre + dt, rest) := by
  intro pre
  induction pre with
  | nil =>
    intro e dt m rest _ hm ht
    simp only [sumDt_nil, Nat.add_zero] at ht ⊢
    simp only [List.nil_append, waitLoop, if_pos ht, if_pos hm]
  | cons ev pre ih =>
    intro e dt m rest hpre hm ht
    obtain ⟨dt0, r0⟩ := ev
    have he : e < timeout := by
      have := sumDt_cons (dt0, r0) pre
      omega
    have ht2 : e + dt0 + sumDt pre < timeout := by
      have := sumDt_cons (dt0, r0) pre
      omega
    have harr : e + dt0 + sumDt pre = e + sumDt ((dt0, r0) :: pre) := by
      simp [Nat.add_assoc]
    cases r0 with
    | none =>
      simp only [List.cons_append, waitLoop, if_pos he, List.append_eq]
      rw [ih (e + dt0) dt m rest
        (fun dt1 m1 hmem => hpre dt1 m1 (List.mem_cons_of_mem _ hmem)) hm ht2]
      rw [harr]
    | some msg =>
      have hne : msg.arbitration_id ≠ can_id := hpre dt0 msg (List.mem_cons_self _ _)
      simp only [List.cons_append, waitLoop, if_pos he, if_neg hne, List.append_eq]
      rw [ih (e + dt0) dt m rest
        (fun dt1 m1 hmem => hpre dt1 m1 (List.mem_cons_of_mem _ hmem)) hm ht2]
      rw [harr]

theorem waitLoop_rest_length_le (can_id timeout : Nat) :
    ∀ (s : List Event) (elapsed : Nat),
      (waitLoop can_id timeout elapsed s).2.2.length ≤ s.length := by
  intro s
  induction s with
  | nil => intro e; simp [waitLoop]
  | cons ev rest ih =>
    intro e
    obtain ⟨dt, r⟩ := ev
    by_cases he : e < timeout
    · cases r with
      | none =>
        simp only [waitLoop, if_pos he]
        exact Nat.le_succ_of_le (ih _)
      | some msg =>
        by_cases hm : msg.arbitration_id = can_id
        · simp only [waitLoop, if_pos he, if_pos hm]
          exact Nat.le_succ _
        · simp only [waitLoop, if_pos he, if_neg hm]
          exact Nat.le_succ_of_le (ih _)
    · simp [waitLoop, if_neg he]

theorem waitLoop_rest_length_lt (can_id timeout : Nat)
    (s : List Event) (elapsed : Nat) (hs : s ≠ []) (he : elapsed < timeout) :
    (waitLoop can_id timeout elapsed s).2.2.length < s.length := by
  obtain ⟨⟨dt, r⟩, rest, rfl⟩ : ∃ ev rest, s = ev :: rest := by
    cases s with
    | nil => exact absurd rfl hs
    | cons a l => exact ⟨a, l, rfl⟩
  cases r with
  | none =>
    simp only [waitLoop, if_pos he]
    exact Nat.lt_succ_of_le (waitLoop_rest_length_le _ _ _ _)
  | some msg =>
    by_cases hm : msg.arbitration_id = can_id
    · simp only [waitLoop, if_pos he, if_pos hm, List.length_cons]
      exact Nat.lt_succ_self _
    · simp only [waitLoop, if_pos he, if_neg hm]
      exact Nat.lt_succ_of_le (waitLoop_rest_length_le _ _ _ _)

theorem waitLoop_suffix (can_id timeout : Nat) :
    ∀ (s : List Event) (elapsed : Nat),
      (waitLoop can_id timeout elapsed s).2.2 <:+ s := by
  intro s
  induction s with
  | nil => intro e; simp [waitLoop]
  | cons ev rest ih =>
    intro e
    obtain ⟨dt, r⟩ := ev
    by_cases he : e < timeout
    · cases r with
      | none =>
        simp only [waitLoop, if_pos he]
        exact (ih _).trans (List.suffix_cons _ _)
      | some msg =>
        by_cases hm : msg.arbitration_id = can_id
        · simp only [waitLoop, if_pos he, if_pos hm]
          exact List.suffix_cons _ _
        · simp only [waitLoop, if_pos he, if_neg hm]
          exact (ih _).trans (List.suffix_cons _ _)
    · simp [waitLoop, if_neg he]

/-- Little-endian value of a byte list (byte 0 is least significant). -/
def leVal : List Nat → Nat
  | [] => 0
  | b :: bs => b + 256 * leVal bs

/-- Model of `struct.unpack` on the slice `data[0:width]`: Python's `struct`
raises unless the slice has exactly `width` bytes, so the unpack succeeds
exactly when the payload has at least `width` bytes. -/
def unpackLE (width : Nat) (d : List Nat) : Option Nat :=
  if width ≤ d.length then some (leVal (d.take width)) else none

/-- Payload reading of `get_heartbeat` on a matched frame: `data[4]` is the
axis state, `data[5]` the flags byte, `data[0:4]` the little-endian 32-bit
system error.  `none` models the Python exception raised when the payload is
shorter than these accesses require (fewer than 6 bytes). -/
def decodeHeartbeat (d : List Nat) : Option (Nat × Nat × Nat) :=
  match d[4]?, d[5]?, unpackLE 4 d with
  | some axis_state, some flags, some error => some (axis_state, flags, error)
  | _, _, _ => none

/-- Payload reading of `get_errors` on a matched frame: error type 0 and every
type other than 1 read a 32-bit little-endian value from `data[0:4]`; type 1
(motor) reads a 64-bit little-endian value from `data[0:8]`. -/
def decodeErrorPayload (error_type : Nat) (d : List Nat) : Option Nat :=
  if error_type = 0 then unpackLE 4 d
  else if error_type = 1 then unpackLE 8 d
  else unpackLE 4 d

/-- Payload reading of `get_encoder_estimates` on a matched frame: the raw
32-bit little-endian patterns of `data[0:4]` and `data[4:8]`.  The Python
code reinterprets these patterns as IEEE-754 float32 position and velocity;
the reinterpretation is value-preserving on the bit pattern and the decoded
floats are never consumed by the diagnostic logic, so the patterns themselves
are kept here. -/
def decodeEncoderEstimate (d : List Nat) : Option (Nat × Nat) :=
  match unpackLE 4 d, unpackLE 4 (d.drop 4) with
  | some pos, some vel => some (pos, vel)
  | _, _ => none

/-- `get_heartbeat`: sends nothing; waits up to 3 seconds for the periodic
heartbeat frame (command 0x001) and returns its axis state and system error,
or `none` when no heartbeat arrived. -/
def get_heartbeat (node : Nat) (w : World) : Except PyErr (Option (Nat × Nat)) × World :=
  let r := wait_for_message node 0x001 3 w.stream
  let w1 : World := { w with now := w.now + r.2.1, stream := r.2.2 }
  match r.1 with
  | some msg =>
    match decodeHeartbeat msg.data with
    | some (axis_state, _flags, error) => (Except.ok (some (axis_state, error)), w1)
    | none => (Except.error PyErr.malformedPayload, w1)
  | none => (Except.ok none, w1)

/-- `get_errors`: sends command 0x003 with the error type as first payload
byte and seven zero bytes, waits up to 3 seconds for the matching response,
and decodes it per `decodeErrorPayload`; returns 0 when no response
arrived. -/
def get_errors (node error_type : Nat) (w : World) : Except PyErr Nat × World :=
  let w1 := send_command node 0x003 (some [error_type, 0, 0, 0, 0, 0, 0, 0]) w
  let r := wait_for_message node 0x003 3 w1.stream
  let w2 : World := { w1 with now := w1.now + r.2.1, stream := r.2.2 }
  match r.1 with
  | some msg =>
    match decodeErrorPayload error_type msg.data with
    | some error => (Except.ok error, w2)
    | none => (Except.error PyErr.malformedPayload, w2)
  | none => (Except.ok 0, w2)

/-- `get_encoder_estimates`: sends command 0x009 with the default all-zero
payload, waits up to 3 seconds for the matching response and decodes position
and velocity; returns `none` when no response arrived. -/
def get_encoder_estimates (node : Nat) (w : World) : Except PyErr (Option (Nat × Nat)) × World :=
  let w1 := send_command node 0x009 none w
  let r := wait_for_message node 0x009 3 w1.stream
  let w2 : World := { w1 with now := w1.now + r.2.1, stream := r.2.2 }
  match r.1 with
  | some msg =>
    match decodeEncoderEstimate msg.data with
    | some pv => (Except.ok (some pv), w2)
    | none => (Except.error PyErr.malformedPayload, w2)
  | none => (Except.ok none, w2)

/-- `save_and_reboot`: sends save-configuration (0x01F), sleeps 3 seconds,
sends reboot (0x016), sleeps 3 seconds.  No response is awaited. -/
def save_and_reboot (node : Nat) (w : World) : World :=
  let w1 := send_command node 0x01F none w
  let w2 : World := { w1 with now := w1.now + 3 }
  let w3 := send_command node 0x016 none w2
  { w3 with now := w3.now + 3 }

theorem wait_for_message_nil (node cmd_id timeout : Nat) :
    wait_for_message node cmd_id timeout [] = (none, max 0 timeout, []) := by
  simp [wait_for_message, waitLoop]

theorem wait_for_message_rest_length_lt (node cmd_id timeout : Nat)
    (s : List Event) (hs : s ≠ []) (ht : 0 < timeout) :
    (wait_for_message node cmd_id timeout s).2.2.length < s.length :=
  waitLoop_rest_length_lt _ _ _ _ hs ht

/-- The surveillance loop of the two calibration tests: while the elapsed
time is below the deadline, wait (1-second timeout) for the next heartbeat
frame; stop with success as soon as a received sample has axis state 1
(IDLE), otherwise keep polling.  Returns the outcome, the loop's total
duration and the unconsumed stream; `Except.error` models the Python
exception raised when a heartbeat payload has no byte 4. -/
def calibration_loop (node deadline elapsed : Nat) (s : List Event) :
    Except PyErr Bool × Nat × List Event :=
  if _h : elapsed < deadline then
    match hr : wait_for_message node 0x001 1 s with
    | (some msg, d, s2) =>
      match msg.data[4]? with
      | some axis_state =>
        if axis_state = 1 then (Except.ok true, elapsed + d, s2)
        else calibration_loop node deadline (elapsed + d) s2
      | none => (Except.error PyErr.malformedPayload, elapsed + d, s2)
    | (none, d, s2) => calibration_loop node deadline (elapsed + d) s2
  else (Except.ok false, elapsed, s)
termination_by s.length + (deadline - elapsed)
decreasing_by
  all_goals
    rcases s with - | ⟨ev, s0⟩
    · rw [wait_for_message_nil] at hr
      injection hr with hr1 hr2
      injection hr2 with hr2 hr3
      subst hr2 hr3
      simp only [List.length_nil]
      omega
    · have hlt := wait_for_message_rest_length_lt node 0x001 1 (ev :: s0)
        (by simp) (by omega)
      rw [hr] at hlt
      simp only at hlt
      omega

/-- `test_motor_calibration`: sends set-axis-state 4 (motor calibration),
watches the heartbeat stream for 15 seconds, and on timeout forces the axis
back to state 1 (IDLE) with a single corrective command. -/
def test_motor_calibration (node : Nat) (w : World) : Except PyErr Bool × World :=
  let w1 := send_command node 0x007 (some [4, 0, 0, 0, 0, 0, 0, 0]) w
  let r := calibration_loop node 15 0 w1.stream
  let w2 : World := { w1 with now := w1.now + r.2.1, stream := r.2.2 }
  match r.1 with
  | Except.ok true => (Except.ok true, w2)
  | Except.ok false => (Except.ok false, send_command node 0x007 (some [1, 0, 0, 0, 0, 0, 0, 0]) w2)
  | Except.error e => (Except.error e, w2)

/-- `test_encoder_calibration`: sends set-axis-state 7 (encoder offset
calibration), watches the heartbeat stream for 20 seconds, and on timeout
forces the axis back to state 1 (IDLE) with a single corrective command. -/
def test_encoder_calibration (node : Nat) (w : World) : Except PyErr Bool × World :=
  let w1 := send_command node 0x007 (some [7, 0, 0, 0, 0, 0, 0, 0]) w
  let r := calibration_loop node 20 0 w1.stream
  let w2 : World := { w1 with now := w1.now + r.2.1, stream := r.2.2 }
  match r.1 with
  | Except.ok true => (Except.ok true, w2)
  | Except.ok false => (Except.ok false, send_command node 0x007 (some [1, 0, 0, 0, 0, 0, 0, 0]) w2)
  | Except.error e => (Except.error e, w2)

/-- `full_diagnostic`: heartbeat check (early return `false` when the motor
cannot be reached), then the three error queries, the encoder estimate query,
the two calibration tests, save-and-reboot, and the aggregated verdict. -/
def full_diagnostic (node : Nat) (w : World) : Except PyErr Bool × World :=
  let hb := get_heartbeat node w
  match hb.1 with
  | Except.error e => (Except.error e, hb.2)
  | Except.ok none => (Except.ok false, hb.2)
  | Except.ok (some _) =>
    let r0 := get_errors node 0 hb.2
    match r0.1 with
    | Except.error e => (Except.error e, r0.2)
    | Except.ok system_error =>
      let r1 := get_errors node 1 r0.2
      match r1.1 with
      | Except.error e => (Except.error e, r1.2)
      | Except.ok motor_error =>
        let r4 := get_errors node 4 r1.2
        match r4.1 with
        | Except.error e => (Except.error e, r4.2)
        | Except.ok encoder_error =>
          let re := get_encoder_estimates node r4.2
          match re.1 with
          | Except.error e => (Except.error e, re.2)
          | Except.ok _ =>
            let rm := test_motor_calibration node re.2
            match rm.1 with
            | Except.error e => (Except.error e, rm.2)
            | Except.ok motor_ok =>
              let rc := test_encoder_calibration node rm.2
              match rc.1 with
              | Except.error e => (Except.error e, rc.2)
              | Except.ok encoder_ok =>
                let w8 := save_and_reboot node rc.2
                (Except.ok (system_error == 0 && motor_error == 0 &&
                  encoder_error == 0 && motor_ok && encoder_ok), w8)

/-- The get-errors request frame for a given error type. -/
def errQueryFrame (node error_type : Nat) : Msg :=
  ⟨arbId node 0x003, [error_type, 0, 0, 0, 0, 0, 0, 0], false⟩

/-- The get-encoder-estimates request frame. -/
def encQueryFrame (node : Nat) : Msg := ⟨arbId node 0x009, List.replicate 8 0, false⟩

/-- The set-axis-state frame for a target state. -/
def setStateFrame (node st : Nat) : Msg :=
  ⟨arbId node 0x007, [st, 0, 0, 0, 0, 0, 0, 0], false⟩

/-- The save-configuration frame. -/
def saveFrame (node : Nat) : Msg := ⟨arbId node 0x01F, List.replicate 8 0, false⟩

/-- The reboot frame. -/
def rebootFrame (node : Nat) : Msg := ⟨arbId node 0x016, List.replicate 8 0, false⟩

theorem get_heartbeat_sent (node : Nat) (w : World) :
    (get_heartbeat node w).2.sent = w.sent := by
  simp only [get_heartbeat]
  split
  · split <;> rfl
  · rfl

theorem get_errors_sent (node error_type : Nat) (w : World) :
    (get_errors node error_type w).2.sent = w.sent ++ [errQueryFrame node error_type] := by
  simp only [get_errors, send_command, errQueryFrame]
  split
  · split <;> rfl
  · rfl

theorem get_encoder_estimates_sent (node : Nat) (w : World) :
    (get_encoder_estimates node w).2.sent = w.sent ++ [encQueryFrame node] := by
  simp only [get_encoder_estimates, send_command, encQueryFrame]
  split
  · split <;> rfl
  · rfl

theorem save_and_reboot_sent (node : Nat) (w : World) :
    (save_and_reboot node w).sent = w.sent ++ [saveFrame node, rebootFrame node] := by
  simp [save_and_reboot, send_command, saveFrame, rebootFrame]

theorem test_motor_calibration_sent (node : Nat) (w : World) :
    ((test_motor_calibration node w).1 = Except.ok true →
      (test_motor_calibration node w).2.sent = w.sent ++ [setStateFrame node 4]) ∧
    ((test_motor_calibration node w).1 = Except.ok false →
      (test_motor_calibration node w).2.sent =
        w.sent ++ [setStateFrame node 4, setStateFrame node 1]) ∧
    (∀ e, (test_motor_calibration node w).1 = Except.error e →
      (test_motor_calibration node w).2.sent = w.sent ++ [setStateFrame node 4]) := by
  simp only [test_motor_calibration, send_command, setStateFrame]
  split
  · simp
  · simp
  · simp

theorem test_encoder_calibration_sent (node : Nat) (w : World) :
    ((test_encoder_calibration node w).1 = Except.ok true →
      (test_encoder_calibration node w).2.sent = w.sent ++ [setStateFrame node 7]) ∧
    ((test_encoder_calibration node w).1 = Except.ok false →
      (test_encoder_calibration node w).2.sent =
        w.sent ++ [setStateFrame node 7, setStateFrame node 1]) ∧
    (∀ e, (test_encoder_calibration node w).1 = Except.error e →
      (test_encoder_calibration node w).2.sent = w.sent ++ [setStateFrame node 7]) := by
  simp only [test_encoder_calibration, send_command, setStateFrame]
  split
  · simp
  · simp
  · simp

theorem calibration_loop_stop (node deadline elapsed : Nat) (s : List Event)
    (he : ¬ elapsed < deadline) :
    calibration_loop node deadline elapsed s = (Except.ok false, elapsed, s) := by
  rw [calibration_loop, dif_neg he]

theorem calibration_loop_step_none (node deadline elapsed d : Nat) (s s2 : List Event)
    (he : elapsed < deadline)
    (hr : wait_for_message node 0x001 1 s = (none, d, s2)) :
    calibration_loop node deadline elapsed s =
      calibration_loop node deadline (elapsed + d) s2 := by
  rw [calibration_loop, dif_pos he]
  split
  · rename_i msg d0 s0 heq
    rw [hr] at heq
    simp at heq
  · rename_i d0 s0 heq
    rw [hr] at heq
    injection heq with h1 h2
    injection h2 with h2 h3
    rw [h2, h3]

theorem calibration_loop_step_idle (node deadline elapsed d : Nat) (s s2 : List Event)
    (msg : Msg) (he : elapsed < deadline)
    (hr : wait_for_message node 0x001 1 s = (some msg, d, s2))
    (hst : msg.data[4]? = some 1) :
    calibration_loop node deadline elapsed s = (Except.ok true, elapsed + d, s2) := by
  rw [calibration_loop, dif_pos he]
  split
  · rename_i msg0 d0 s0 heq
    rw [hr] at heq
    injection heq with h1 h2
    injection h2 with h2 h3
    injection h1 with h1
    subst h1 h2 h3
    rw [hst]
    simp
  · rename_i d0 s0 heq
    rw [hr] at heq
    simp at heq

theorem calibration_loop_step_progress (node deadline elapsed d st : Nat)
    (s s2 : List Event) (msg : Msg) (he : elapsed < deadline)
    (hr : wait_for_message node 0x001 1 s = (some msg, d, s2))
    (hst : msg.data[4]? = some st) (h1 : st ≠ 1) :
    calibration_loop node deadline elapsed s =
      calibration_loop node deadline (elapsed + d) s2 := by
  rw [calibration_loop, dif_pos he]
  split
  · rename_i msg0 d0 s0 heq
    rw [hr] at heq
    injection heq with e1 e2
    injection e2 with e2 e3
    injection e1 with e1
    subst e1 e2 e3
    rw [hst]
    simp [h1]
  · rename_i d0 s0 heq
    rw [hr] at heq
    simp at heq

theorem calibration_loop_step_short (node deadline elapsed d : Nat)
    (s s2 : List Event) (msg : Msg) (he : elapsed < deadline)
    (hr : wait_for_message node 0x001 1 s = (some msg, d, s2))
    (hst : msg.data[4]? = none) :
    calibration_loop node deadline elapsed s =
      (Except.error PyErr.malformedPayload, elapsed + d, s2) := by
  rw [calibration_loop, dif_pos he]
  split
  · rename_i msg0 d0 s0 heq
    rw [hr] at heq
    injection heq with e1 e2
    injection e2 with e2 e3
    injection e1 with e1
    subst e1 e2 e3
    rw [hst]
  · rename_i d0 s0 heq
    rw [hr] at heq
    simp at heq

theorem waitLoop_split (can_id t : Nat) :
    ∀ (pre : List Event) (e0 dt : Nat) (m : Msg) (rest : List Event),
      m.arbitration_id = can_id →
      (waitLoop can_id t e0 (pre ++ (dt, some m) :: rest) =
          (some m, e0 + sumDt pre + dt, rest))
      ∨ (∃ pre1 dt1 m1 pre2, pre = pre1 ++ (dt1, some m1) :: pre2 ∧
          m1.arbitration_id = can_id ∧
          waitLoop can_id t e0 (pre ++ (dt, some m) :: rest) =
            (some m1, e0 + sumDt pre1 + dt1, pre2 ++ (dt, some m) :: rest))
      ∨ (∃ pre1 pre2, pre = pre1 ++ pre2 ∧
          (pre2.length < pre.length ∨ (t ≤ e0 ∧ pre1 = [])) ∧
          waitLoop can_id t e0 (pre ++ (dt, some m) :: rest) =
            (none, e0 + sumDt pre1, pre2 ++ (dt, some m) :: rest)) := by
  intro pre
  induction pre with
  | nil =>
    intro e0 dt m rest hm
    by_cases he : e0 < t
    · left
      simp only [List.nil_append, waitLoop, if_pos he, if_pos hm, sumDt_nil, Nat.add_zero]
    · right; right
      exact ⟨[], [], by simp, Or.inr ⟨Nat.le_of_not_lt he, rfl⟩,
        by simp [waitLoop, if_neg he]⟩
  | cons ev pre ih =>
    intro e0 dt m rest hm
    obtain ⟨dt0, r0⟩ := ev
    by_cases he : e0 < t
    · cases r0 with
      | none =>
        rcases ih (e0 + dt0) dt m rest hm with hL | ⟨p1, d1, m1, p2, hdec, hm1, heq⟩ |
            ⟨p1, p2, hdec, hlen, heq⟩
        · left
          simp only [List.cons_append, waitLoop, if_pos he, List.append_eq]
          rw [hL]
          simp [Nat.add_assoc]
        · right; left
          refine ⟨(dt0, none) :: p1, d1, m1, p2, by rw [hdec]; rfl, hm1, ?_⟩
          simp only [List.cons_append, waitLoop, if_pos he, List.append_eq]
          rw [heq]
          simp [Nat.add_assoc]
        · right; right
          refine ⟨(dt0, none) :: p1, p2, by rw [hdec]; rfl, ?_, ?_⟩
          · left
            have : p2.length ≤ pre.length := by
              rw [hdec]; simp
            simp only [List.length_cons]
            omega
          · simp only [List.cons_append, waitLoop, if_pos he, List.append_eq]
            rw [heq]
            simp [Nat.add_assoc]
      | some msg =>
        by_cases hmm : msg.arbitration_id = can_id
        · right; left
          refine ⟨[], dt0, msg, pre, rfl, hmm, ?_⟩
          simp only [List.cons_append, waitLoop, if_pos he, if_pos hmm, sumDt_nil,
            Nat.add_zero, List.append_eq]
        · rcases ih (e0 + dt0) dt m rest hm with hL | ⟨p1, d1, m1, p2, hdec, hm1, heq⟩ |
              ⟨p1, p2, hdec, hlen, heq⟩
          · left
            simp only [List.cons_append, waitLoop, if_pos he, if_neg hmm, List.append_eq]
            rw [hL]
            simp [Nat.add_assoc]
          · right; left
            refine ⟨(dt0, some msg) :: p1, d1, m1, p2, by rw [hdec]; rfl, hm1, ?_⟩
            simp only [List.cons_append, waitLoop, if_pos he, if_neg hmm, List.append_eq]
            rw [heq]
            simp [Nat.add_assoc]
          · right; right
            refine ⟨(dt0, some msg) :: p1, p2, by rw [hdec]; rfl, ?_, ?_⟩
            · left
              have : p2.length ≤ pre.length := by
                rw [hdec]; simp
              simp only [List.length_cons]
              omega
            · simp only [List.cons_append, waitLoop, if_pos he, if_neg hmm, List.append_eq]
              rw [heq]
              simp [Nat.add_assoc]
    · right; right
      exact ⟨[], (dt0, r0) :: pre, by simp, Or.inr ⟨Nat.le_of_not_lt he, rfl⟩,
        by simp [waitLoop, if_neg he]⟩

theorem waitLoop_mem (can_id timeout : Nat) :
    ∀ (s : List Event) (elapsed d : Nat) (m : Msg) (s2 : List Event),
      waitLoop can_id timeout elapsed s = (some m, d, s2) →
      ∃ dt, (dt, some m) ∈ s := by
  intro s
  induction s with
  | nil =>
    intro e d m s2 h
    simp [waitLoop] at h
  | cons ev rest ih =>
    intro e d m s2 h
    obtain ⟨dt, r⟩ := ev
    by_cases he : e < timeout
    · cases r with
      | none =>
        simp only [waitLoop, if_pos he] at h
        obtain ⟨dt1, hmem⟩ := ih _ _ _ _ h
        exact ⟨dt1, List.mem_cons_of_mem _ hmem⟩
      | some msg =>
        by_cases hm : msg.arbitration_id = can_id
        · simp only [waitLoop, if_pos he, if_pos hm, Prod.mk.injEq] at h
          obtain ⟨h1, -⟩ := h
          injection h1 with h1
          exact ⟨dt, by rw [h1]; exact List.mem_cons_self _ _⟩
        · simp only [waitLoop, if_pos he, if_neg hm] at h
          obtain ⟨dt1, hmem⟩ := ih _ _ _ _ h
          exact ⟨dt1, List.mem_cons_of_mem _ hmem⟩
    · simp [waitLoop, if_neg he] at h

theorem calibration_loop_no_idle (node deadline : Nat) :
    ∀ (n : Nat) (s : List Event) (elapsed : Nat),
      s.length + (deadline - elapsed) ≤ n →
      (∀ dt m, (dt, some m) ∈ s → m.arbitration_id = arbId node 0x001 →
        ∃ st, m.data[4]? = some st ∧ st ≠ 1) →
      ∃ d s2, calibration_loop node deadline elapsed s =
        (Except.ok false, d, s2) := by
  intro n
  induction n with
  | zero =>
    intro s e hn hwf
    have he : ¬ e < deadline := by omega
    exact ⟨e, s, calibration_loop_stop node deadline e s he⟩
  | succ n ih =>
    intro s e hn hwf
    by_cases he : e < deadline
    · rcases s with - | ⟨ev, s0⟩
      · have hr : wait_for_message node 0x001 1 [] = (none, 1, []) := by
          rw [wait_for_message_nil]
          norm_num
        rw [calibration_loop_step_none node deadline e 1 [] [] he hr]
        exact ih [] (e + 1) (by simp at hn ⊢; omega) (by simp)
      · rcases hrw : wait_for_message node 0x001 1 (ev :: s0) with ⟨r, d, s2⟩
        have hlt : s2.length < (ev :: s0).length := by
          have := wait_for_message_rest_length_lt node 0x001 1 (ev :: s0)
            (by simp) (by omega)
          rw [hrw] at this
          exact this
        have hsuf : s2 <:+ ev :: s0 := by
          have := waitLoop_suffix (arbId node 0x001) 1 (ev :: s0) 0
          rw [wait_for_message] at hrw
          rw [hrw] at this
          exact this
        have hwf2 : ∀ dt m, (dt, some m) ∈ s2 → m.arbitration_id = arbId node 0x001 →
            ∃ st, m.data[4]? = some st ∧ st ≠ 1 :=
          fun dt m hmem => hwf dt m (hsuf.subset hmem)
        have hmes : s2.length + (deadline - (e + d)) ≤ n := by
          simp only [List.length_cons] at hn hlt
          omega
        cases r with
        | none =>
          rw [calibration_loop_step_none node deadline e d (ev :: s0) s2 he
            (by rw [wait_for_message]; exact hrw)]
          exact ih s2 (e + d) hmes hwf2
        | some msg =>
          have hmatch : msg.arbitration_id = arbId node 0x001 :=
            waitLoop_matches _ _ _ _ _ _ _ hrw
          obtain ⟨dt1, hmem⟩ := waitLoop_mem _ _ _ _ _ _ _ hrw
          obtain ⟨st, hst, hne1⟩ := hwf dt1 msg hmem hmatch
          rw [calibration_loop_step_progress node deadline e d st (ev :: s0) s2 msg he
            (by rw [wait_for_message]; exact hrw) hst hne1]
          exact ih s2 (e + d) hmes hwf2
    · exact ⟨e, s, calibration_loop_stop node deadline e s he⟩

theorem calibration_loop_finds_idle (node deadline dt : Nat) (m : Msg)
    (rest : List Event) (hm : m.arbitration_id = arbId node 0x001)
    (hidle : m.data[4]? = some 1) :
    ∀ (n : Nat) (pre : List Event) (elapsed : Nat), pre.length ≤ n →
      (∀ dt0 m0, (dt0, some m0) ∈ pre → m0.arbitration_id = arbId node 0x001 →
        ∃ st, m0.data[4]? = some st ∧ st ≠ 1) →
      elapsed + sumDt pre < deadline →
      ∃ d, calibration_loop node deadline elapsed (pre ++ (dt, some m) :: rest) =
        (Except.ok true, d, rest) := by
  intro n
  induction n with
  | zero =>
    intro pre e hlen hpre ht
    have hnil : pre = [] := List.length_eq_zero.1 (Nat.le_zero.1 hlen)
    subst hnil
    have he : e < deadline := by simpa using ht
    have hr : wait_for_message node 0x001 1 ((dt, some m) :: rest) =
        (some m, dt, rest) := by
      rw [wait_for_message]
      have := waitLoop_finds_first (arbId node 0x001) 1 [] 0 dt m rest
        (by simp) hm (by simp)
      simpa using this
    simp only [List.nil_append]
    exact ⟨e + dt, calibration_loop_step_idle node deadline e dt _ rest m he hr hidle⟩
  | succ n ih =>
    intro pre e hlen hpre ht
    have he : e < deadline := by
      have := Nat.le_add_right e (sumDt pre)
      omega
    rcases waitLoop_split (arbId node 0x001) 1 pre 0 dt m rest hm with hL |
        ⟨p1, d1, m1, p2, hdec, hm1, heq⟩ | ⟨p1, p2, hdec, hlen2, heq⟩
    · have hr : wait_for_message node 0x001 1 (pre ++ (dt, some m) :: rest) =
          (some m, 0 + sumDt pre + dt, rest) := by
        rw [wait_for_message]
        exact hL
      exact ⟨e + (0 + sumDt pre + dt),
        calibration_loop_step_idle node deadline e _ _ rest m he hr hidle⟩
    · have hmem : (d1, some m1) ∈ pre := by
        rw [hdec]
        exact List.mem_append.2 (Or.inr (List.mem_cons_self _ _))
      obtain ⟨st, hst, hne1⟩ := hpre d1 m1 hmem hm1
      have hr : wait_for_message node 0x001 1 (pre ++ (dt, some m) :: rest) =
          (some m1, 0 + sumDt p1 + d1, p2 ++ (dt, some m) :: rest) := by
        rw [wait_for_message]
        exact heq
      rw [calibration_loop_step_progress node deadline e _ st _ _ m1 he hr hst hne1]
      apply ih p2 (e + (0 + sumDt p1 + d1))
      · have : p2.length < pre.length := by
          rw [hdec]
          simp only [List.length_append, List.length_cons]
          omega
        omega
      · intro dt0 m0 hmem0 hmatch0
        exact hpre dt0 m0
          (by rw [hdec]; exact List.mem_append.2 (Or.inr (List.mem_cons_of_mem _ hmem0)))
          hmatch0
      · have hsum : sumDt pre = sumDt p1 + d1 + sumDt p2 := by
          rw [hdec]
          simp
          omega
        omega
    · have hcase : p2.length < pre.length := by
        rcases hlen2 with h | ⟨hto, -⟩
        · exact h
        · omega
      have hr : wait_for_message node 0x001 1 (pre ++ (dt, some m) :: rest) =
          (none, 0 + sumDt p1, p2 ++ (dt, some m) :: rest) := by
        rw [wait_for_message]
        exact heq
      rw [calibration_loop_step_none node deadline e _ _ _ he hr]
      apply ih p2 (e + (0 + sumDt p1))
      · omega
      · intro dt0 m0 hmem0 hmatch0
        exact hpre dt0 m0
          (by rw [hdec]; exact List.mem_append.2 (Or.inr hmem0)) hmatch0
      · have hsum : sumDt pre = sumDt p1 + sumDt p2 := by
          rw [hdec]
          simp
        omega

@[simp] theorem send_command_stream (node cmd_id : Nat) (data : Option (List Nat))
    (w : World) : (send_command node cmd_id data w).stream = w.stream := by
  cases data <;> rfl

@[simp] theorem send_command_now (node cmd_id : Nat) (data : Option (List Nat))
    (w : World) : (send_command node cmd_id data w).now = w.now := by
  cases data <;> rfl

theorem send_command_sent (node cmd_id : Nat) (data : Option (List Nat)) (w : World) :
    (send_command node cmd_id data w).sent =
      w.sent ++ [⟨arbId node cmd_id, data.getD (List.replicate 8 0), false⟩] := by
  cases data <;> rfl

theorem test_motor_calibration_timeout (node : Nat) (w : World)
    (hwf : ∀ dt m, (dt, some m) ∈ w.stream → m.arbitration_id = arbId node 0x001 →
      ∃ st, m.data[4]? = some st ∧ st ≠ 1) :
    (test_motor_calibration node w).1 = Except.ok false ∧
    (test_motor_calibration node w).2.sent =
      w.sent ++ [setStateFrame node 4, setStateFrame node 1] := by
  obtain ⟨d, s2, hloop⟩ := calibration_loop_no_idle node 15
    (w.stream.length + 15) w.stream 0 (by omega) hwf
  simp only [test_motor_calibration, send_command_stream, hloop]
  refine ⟨trivial, ?_⟩
  simp [send_command_sent, setStateFrame]

theorem test_encoder_calibration_timeout (node : Nat) (w : World)
    (hwf : ∀ dt m, (dt, some m) ∈ w.stream → m.arbitration_id = arbId node 0x001 →
      ∃ st, m.data[4]? = some st ∧ st ≠ 1) :
    (test_encoder_calibration node w).1 = Except.ok false ∧
    (test_encoder_calibration node w).2.sent =
      w.sent ++ [setStateFrame node 7, setStateFrame node 1] := by
  obtain ⟨d, s2, hloop⟩ := calibration_loop_no_idle node 20
    (w.stream.length + 20) w.stream 0 (by omega) hwf
  simp only [test_encoder_calibration, send_command_stream, hloop]
  refine ⟨trivial, ?_⟩
  simp [send_command_sent, setStateFrame]

theorem test_motor_calibration_success (node : Nat) (w : World)
    (pre : List Event) (dt : Nat) (m : Msg) (rest : List Event)
    (hs : w.stream = pre ++ (dt, some m) :: rest)
    (hpre : ∀ dt0 m0, (dt0, some m0) ∈ pre → m0.arbitration_id = arbId node 0x001 →
      ∃ st, m0.data[4]? = some st ∧ st ≠ 1)
    (hm : m.arbitration_id = arbId node 0x001)
    (hidle : m.data[4]? = some 1)
    (ht : sumDt pre < 15) :
    (test_motor_calibration node w).1 = Except.ok true ∧
    (test_motor_calibration node w).2.sent = w.sent ++ [setStateFrame node 4] ∧
    (test_motor_calibration node w).2.stream = rest := by
  obtain ⟨d, hloop⟩ := calibration_loop_finds_idle node 15 dt m rest hm hidle
    pre.length pre 0 le_rfl hpre (by omega)
  rw [← hs] at hloop
  simp only [test_motor_calibration, send_command_stream, hloop]
  refine ⟨trivial, ?_, trivial⟩
  simp [send_command_sent, setStateFrame]

theorem test_encoder_calibration_success (node : Nat) (w : World)
    (pre : List Event) (dt : Nat) (m : Msg) (rest : List Event)
    (hs : w.stream = pre ++ (dt, some m) :: rest)
    (hpre : ∀ dt0 m0, (dt0, some m0) ∈ pre → m0.arbitration_id = arbId node 0x001 →
      ∃ st, m0.data[4]? = some st ∧ st ≠ 1)
    (hm : m.arbitration_id = arbId node 0x001)
    (hidle : m.data[4]? = some 1)
    (ht : sumDt pre < 20) :
    (test_encoder_calibration node w).1 = Except.ok true ∧
    (test_encoder_calibration node w).2.sent = w.sent ++ [setStateFrame node 7] ∧
    (test_encoder_calibration node w).2.stream = rest := by
  obtain ⟨d, hloop⟩ := calibration_loop_finds_idle node 20 dt m rest hm hidle
    pre.length pre 0 le_rfl hpre (by omega)
  rw [← hs] at hloop
  simp only [test_encoder_calibration, send_command_stream, hloop]
  refine ⟨trivial, ?_, trivial⟩
  simp [send_command_sent, setStateFrame]

theorem decodeHeartbeat_short (d : List Nat) (h : d.length < 6) :
    decodeHeartbeat d = none := by
  have h5 : d[5]? = none := by
    rw [List.getElem?_eq_none]
    omega
  rcases h4 : d[4]? with - | a
  · rcases hu : unpackLE 4 d with - | u <;> simp [decodeHeartbeat, h4, h5, hu]
  · rcases hu : unpackLE 4 d with - | u <;> simp [decodeHeartbeat, h4, h5, hu]

theorem decodeErrorPayload_short_motor (d : List Nat) (h : d.length < 8) :
    decodeErrorPayload 1 d = none := by
  have h18 : decodeErrorPayload 1 d = unpackLE 8 d := rfl
  rw [h18, unpackLE, if_neg (by omega)]

theorem decodeErrorPayload_short (error_type : Nat) (d : List Nat) (h : d.length < 4) :
    decodeErrorPayload error_type d = none := by
  rw [decodeErrorPayload]
  split_ifs <;> rw [unpackLE, if_neg (by omega)]

theorem decodeErrorPayload_long (error_type : Nat) (d : List Nat) (h : 8 ≤ d.length) :
    decodeErrorPayload error_type d =
      some (if error_type = 1 then leVal (d.take 8) else leVal (d.take 4)) := by
  by_cases h1 : error_type = 1
  · subst h1
    have h18 : decodeErrorPayload 1 d = unpackLE 8 d := rfl
    rw [h18, unpackLE, if_pos h]
    norm_num
  · rw [if_neg h1, decodeErrorPayload]
    by_cases h0 : error_type = 0
    · rw [if_pos h0, unpackLE, if_pos (by omega)]
    · rw [if_neg h0, if_neg h1, unpackLE, if_pos (by omega)]

theorem forall_stream_no_match (can_id : Nat) :
    ∀ s : List Event,
      (s.all fun ev => match ev.2 with
        | some m => decide (m.arbitration_id ≠ can_id)
        | none => true) = true →
      ∀ dt m, (dt, some m) ∈ s → m.arbitration_id ≠ can_id := by
  intro s
  induction s with
  | nil =>
    intro _ dt m hm
    simp at hm
  | cons ev rest ih =>
    intro hall dt m hm
    rw [List.all_cons, Bool.and_eq_true] at hall
    rcases List.mem_cons.1 hm with h | h
    · have hc := hall.1
      rw [← h] at hc
      simpa using hc
    · exact ih hall.2 dt m h

theorem wait_for_message_immediate (node cmd_id timeout dt : Nat) (d : List Nat)
    (ext : Bool) (rest : List Event) (ht : 0 < timeout) :
    wait_for_message node cmd_id timeout
        ((dt, some ⟨arbId node cmd_id, d, ext⟩) :: rest) =
      (some ⟨arbId node cmd_id, d, ext⟩, dt, rest) := by
  rw [wait_for_message]
  have := waitLoop_finds_first (arbId node cmd_id) timeout [] 0 dt
    ⟨arbId node cmd_id, d, ext⟩ rest (by simp) rfl (by simpa using ht)
  simpa using this

/-- Claim C4: the response waiter returns only frames whose arbitration id is
`(node << 5) | cmd_id`; on a stream with one matching frame after any number
of non-matching events within the timeout budget it returns exactly that
frame; and it returns no frame at all when the stream carries no matching
frame, however much non-matching traffic it carries. -/
theorem claim_C4_response_waiter (node cmd_id timeout : Nat) :
    (∀ (s : List Event) (m : Msg) (d : Nat) (s2 : List Event),
      wait_for_message node cmd_id timeout s = (some m, d, s2) →
      m.arbitration_id = arbId node cmd_id) ∧
    (∀ (pre : List Event) (dt : Nat) (m : Msg) (rest : List Event),
      (∀ dt0 m0, (dt0, some m0) ∈ pre → m0.arbitration_id ≠ arbId node cmd_id) →
      m.arbitration_id = arbId node cmd_id →
      sumDt pre < timeout →
      wait_for_message node cmd_id timeout (pre ++ (dt, some m) :: rest) =
        (some m, sumDt pre + dt, rest)) ∧
    (∀ s : List Event,
      (∀ dt0 m0, (dt0, some m0) ∈ s → m0.arbitration_id ≠ arbId node cmd_id) →
      (wait_for_message node cmd_id timeout s).1 = none) := by
  refine ⟨?_, ?_, ?_⟩
  · intro s m d s2 h
    exact waitLoop_matches _ _ _ _ _ _ _ h
  · intro pre dt m rest hpre hm ht
    rw [wait_for_message]
    have := waitLoop_finds_first (arbId node cmd_id) timeout pre 0 dt m rest
      hpre hm (by simpa using ht)
    simpa using this
  · intro s hs
    exact waitLoop_no_match _ _ _ _ hs

/-- Claim C4 witness: a stream with one non-matching frame then the matching
frame yields the matching frame; a stream with only non-matching traffic
yields no frame. -/
theorem claim_C4_witness :
    wait_for_message 1 3 3
        [(0, some ⟨99, [], false⟩), (1, some ⟨35, [7, 0, 0, 0], false⟩)] =
      (some ⟨35, [7, 0, 0, 0], false⟩, 1, []) ∧
    (wait_for_message 1 3 3 [(1, some ⟨99, [], false⟩), (1, none), (1, none)]).1 =
      none := by
  constructor
  · have h := (claim_C4_response_waiter 1 3 3).2.1 [(0, some ⟨99, [], false⟩)] 1
      ⟨35, [7, 0, 0, 0], false⟩ []
      (forall_stream_no_match (arbId 1 3) _ (by decide)) (by decide) (by decide)
    simpa using h
  · exact (claim_C4_response_waiter 1 3 3).2.2
      [(1, some ⟨99, [], false⟩), (1, none), (1, none)]
      (forall_stream_no_match (arbId 1 3) _ (by decide))

/-- Claim C9: `get_heartbeat` transmits nothing on the bus — its sent log is
unchanged — and when no heartbeat frame arrives within its 3-second wait it
signals the absence of a response (`Except.ok none`). -/
theorem claim_C9_heartbeat_passive (node : Nat) (w : World) :
    (get_heartbeat node w).2.sent = w.sent ∧
    ((∀ dt m, (dt, some m) ∈ w.stream → m.arbitration_id ≠ arbId node 0x001) →
      (get_heartbeat node w).1 = Except.ok none) := by
  refine ⟨get_heartbeat_sent node w, ?_⟩
  intro hs
  have hnone : (wait_for_message node 0x001 3 w.stream).1 = none :=
    waitLoop_no_match _ _ _ _ hs
  rcases hw : wait_for_message node 0x001 3 w.stream with ⟨r, d, s2⟩
  rw [hw] at hnone
  simp only at hnone
  subst hnone
  simp only [get_heartbeat, hw]

/-- Claim C9 witness: on a stream carrying only a non-heartbeat frame the
heartbeat query sends nothing and reports no response. -/
theorem claim_C9_witness :
    (get_heartbeat 1 ⟨0, [(1, some ⟨99, [1, 2], false⟩)], []⟩).2.sent = [] ∧
    (get_heartbeat 1 ⟨0, [(1, some ⟨99, [1, 2], false⟩)], []⟩).1 = Except.ok none := by
  have h := claim_C9_heartbeat_passive 1 ⟨0, [(1, some ⟨99, [1, 2], false⟩)], []⟩
  exact ⟨h.1, h.2 (forall_stream_no_match (arbId 1 1) _ (by decide))⟩

/-- Claim C10: when the initial heartbeat wait of a diagnostic run reports no
response, `full_diagnostic` returns failure immediately and the client has
sent no frame at all during the run. -/
theorem claim_C10_no_heartbeat_sends_nothing (node : Nat) (w : World)
    (h : (get_heartbeat node w).1 = Except.ok none) :
    (full_diagnostic node w).1 = Except.ok false ∧
    (full_diagnostic node w).2.sent = w.sent := by
  simp only [full_diagnostic, h]
  exact ⟨trivial, get_heartbeat_sent node w⟩

/-- Claim C10 witness: with an empty event stream the heartbeat wait times
out, the diagnostic returns failure and nothing is sent. -/
theorem claim_C10_witness :
    (full_diagnostic 1 ⟨0, [], []⟩).1 = Except.ok false ∧
    (full_diagnostic 1 ⟨0, [], []⟩).2.sent = [] :=
  claim_C10_no_heartbeat_sends_nothing 1 ⟨0, [], []⟩ rfl

/-- Claim C2 (amended): when `get_errors` receives no matching response
within its wait it returns the bare value 0, with no separate no-response
signal in its result. -/
theorem claim_C2_get_errors_timeout (node error_type : Nat) (w : World)
    (h : ∀ dt m, (dt, some m) ∈ w.stream → m.arbitration_id ≠ arbId node 0x003) :
    (get_errors node error_type w).1 = Except.ok 0 := by
  have hnone : (wait_for_message node 0x003 3 w.stream).1 = none :=
    waitLoop_no_match _ _ _ _ h
  rcases hw : wait_for_message node 0x003 3 w.stream with ⟨r, d, s2⟩
  rw [hw] at hnone
  simp only at hnone
  subst hnone
  simp only [get_errors, send_command_stream, hw]

/-- Claim C2 counterexample: the outcome of `get_errors` after a timeout is
exactly the same value `Except.ok 0` as its outcome after a response whose
error code is 0, so the caller cannot tell a missing response from an error
code of zero. -/
theorem claim_C2_counterexample :
    (get_errors 1 0 ⟨0, [], []⟩).1 = Except.ok 0 ∧
    (get_errors 1 0 ⟨0, [(0, some ⟨35, [0, 0, 0, 0, 0, 0, 0, 0], false⟩)], []⟩).1 =
      Except.ok 0 ∧
    (get_errors 1 0 ⟨0, [], []⟩).1 =
      (get_errors 1 0 ⟨0, [(0, some ⟨35, [0, 0, 0, 0, 0, 0, 0, 0], false⟩)], []⟩).1 := by
  exact ⟨rfl, rfl, rfl⟩

/-- Claim C2 witness: a stream with only a heartbeat frame carries no
get-errors response, and the error query returns the plain 0. -/
theorem claim_C2_witness :
    (get_errors 1 4 ⟨0, [(1, some ⟨33, [0, 0, 0, 0, 1, 0, 0, 0], false⟩)], []⟩).1 =
      Except.ok 0 :=
  claim_C2_get_errors_timeout 1 4 _ (forall_stream_no_match (arbId 1 3) _ (by decide))

/-- Claim C5: a matched frame whose payload is shorter than the decoder's
field widths (under 6 bytes for the heartbeat decode, under 8 bytes for the
64-bit motor error decode, under 4 bytes for the 32-bit error decodes) makes
the operation fail with `malformedPayload`, an outcome distinct from the
timeout outcome (`Except.ok none` respectively `Except.ok 0`). -/
theorem claim_C5_malformed_payload (node now dt : Nat) (ext : Bool)
    (rest : List Event) (sent : List Msg) :
    (∀ d : List Nat, d.length < 6 →
      (get_heartbeat node
          ⟨now, (dt, some ⟨arbId node 0x001, d, ext⟩) :: rest, sent⟩).1 =
        Except.error PyErr.malformedPayload) ∧
    (∀ d : List Nat, d.length < 8 →
      (get_errors node 1
          ⟨now, (dt, some ⟨arbId node 0x003, d, ext⟩) :: rest, sent⟩).1 =
        Except.error PyErr.malformedPayload) ∧
    (∀ (error_type : Nat) (d : List Nat), error_type ≠ 1 → d.length < 4 →
      (get_errors node error_type
          ⟨now, (dt, some ⟨arbId node 0x003, d, ext⟩) :: rest, sent⟩).1 =
        Except.error PyErr.malformedPayload) ∧
    ((get_heartbeat node ⟨now, [], sent⟩).1 = Except.ok none ∧
      ∀ v, (Except.error PyErr.malformedPayload :
        Except PyErr (Option (Nat × Nat))) ≠ Except.ok v) ∧
    ((get_errors node 1 ⟨now, [], sent⟩).1 = Except.ok 0 ∧
      ∀ v, (Except.error PyErr.malformedPayload : Except PyErr Nat) ≠ Except.ok v) := by
  refine ⟨?_, ?_, ?_, ⟨rfl, fun v h => Except.noConfusion h⟩,
    ⟨rfl, fun v h => Except.noConfusion h⟩⟩
  · intro d hlen
    have hw := wait_for_message_immediate node 0x001 3 dt d ext rest (by norm_num)
    simp only [get_heartbeat, hw, decodeHeartbeat_short d hlen]
  · intro d hlen
    have hw := wait_for_message_immediate node 0x003 3 dt d ext rest (by norm_num)
    simp only [get_errors, send_command_stream, hw, decodeErrorPayload_short_motor d hlen]
  · intro error_type d hne hlen
    have hw := wait_for_message_immediate node 0x003 3 dt d ext rest (by norm_num)
    simp only [get_errors, send_command_stream, hw,
      decodeErrorPayload_short error_type d hlen]

/-- Claim C5 witness: a 5-byte heartbeat payload, a 4-byte motor error
payload and a 1-byte encoder error payload each produce the malformed-payload
failure. -/
theorem claim_C5_witness :
    (get_heartbeat 1 ⟨0, [(0, some ⟨33, [0, 0, 0, 0, 1], false⟩)], []⟩).1 =
      Except.error PyErr.malformedPayload ∧
    (get_errors 1 1 ⟨0, [(0, some ⟨35, [1, 0, 0, 0], false⟩)], []⟩).1 =
      Except.error PyErr.malformedPayload ∧
    (get_errors 1 4 ⟨0, [(0, some ⟨35, [9], false⟩)], []⟩).1 =
      Except.error PyErr.malformedPayload := by
  have h := claim_C5_malformed_payload 1 0 0 false [] []
  exact ⟨h.1 [0, 0, 0, 0, 1] (by norm_num), h.2.1 [1, 0, 0, 0] (by norm_num),
    h.2.2.1 4 [9] (by norm_num) (by norm_num)⟩

/-- Claim C6: `get_errors` sends command 0x003 with the error type as first
payload byte and seven zero bytes; the matched response is decoded as a
64-bit little-endian value when the error type is 1 (motor) and as a 32-bit
little-endian value for every other error type; motor payload
[1,0,0,0,0,0,0,0] decodes to 1 and the all-zero payload to 0. -/
theorem claim_C6_get_errors_encoding (node error_type : Nat) (w : World) :
    (get_errors node error_type w).2.sent =
      w.sent ++ [⟨arbId node 0x003, [error_type, 0, 0, 0, 0, 0, 0, 0], false⟩] ∧
    (∀ (now dt : Nat) (ext : Bool) (rest : List Event) (sent : List Msg)
        (d : List Nat), 8 ≤ d.length →
      (get_errors node error_type
          ⟨now, (dt, some ⟨arbId node 0x003, d, ext⟩) :: rest, sent⟩).1 =
        Except.ok (if error_type = 1 then leVal (d.take 8) else leVal (d.take 4))) ∧
    (get_errors 1 1 ⟨0, [(0, some ⟨35, [1, 0, 0, 0, 0, 0, 0, 0], false⟩)], []⟩).1 =
      Except.ok 1 ∧
    (get_errors 1 1 ⟨0, [(0, some ⟨35, [0, 0, 0, 0, 0, 0, 0, 0], false⟩)], []⟩).1 =
      Except.ok 0 := by
  refine ⟨?_, ?_, rfl, rfl⟩
  · simpa [errQueryFrame] using get_errors_sent node error_type w
  · intro now dt ext rest sent d hlen
    have hw := wait_for_message_immediate node 0x003 3 dt d ext rest (by norm_num)
    simp only [get_errors, send_command_stream, hw,
      decodeErrorPayload_long error_type d hlen]

/-- Claim C6 witness: for the motor error type the 8-byte payload
[2,1,0,0,0,0,0,0] decodes as the 64-bit little-endian value 258. -/
theorem claim_C6_witness :
    (get_errors 1 1 ⟨0, [(0, some ⟨35, [2, 1, 0, 0, 0, 0, 0, 0], false⟩)], []⟩).1 =
      Except.ok 258 := by
  have h := (claim_C6_get_errors_encoding 1 1 ⟨0, [], []⟩).2.1 0 0 false [] []
    [2, 1, 0, 0, 0, 0, 0, 0] (by norm_num)
  simpa using h

theorem arbId_inverse : ∀ node : Nat, node < 64 → ∀ cmd_id : Nat, cmd_id < 32 →
    arbId node cmd_id < 2048 ∧ arbId node cmd_id >>> 5 = node ∧
      arbId node cmd_id % 32 = cmd_id := by decide

/-- Claim C7: every frame built by `send_command` carries arbitration id
`(node << 5) | cmd_id`; for node < 2^6 and cmd_id < 2^5 this id stays below
2^11, the node and command are recovered by shifting and masking, and the
mapping from (node, cmd_id) pairs to arbitration ids is injective. -/
theorem claim_C7_arbitration_id_bijective (node cmd_id : Nat)
    (hn : node < 64) (hc : cmd_id < 32) :
    (∀ (data : Option (List Nat)) (w : World),
      (send_command node cmd_id data w).sent =
        w.sent ++ [⟨arbId node cmd_id, data.getD (List.replicate 8 0), false⟩]) ∧
    arbId node cmd_id < 2048 ∧
    arbId node cmd_id >>> 5 = node ∧
    arbId node cmd_id % 32 = cmd_id ∧
    (∀ node2 cmd2 : Nat, node2 < 64 → cmd2 < 32 →
      arbId node cmd_id = arbId node2 cmd2 → node = node2 ∧ cmd_id = cmd2) := by
  obtain ⟨h1, h2, h3⟩ := arbId_inverse node hn cmd_id hc
  refine ⟨send_command_sent node cmd_id, h1, h2, h3, ?_⟩
  intro n2 c2 hn2 hc2 heq
  obtain ⟨-, g2, g3⟩ := arbId_inverse n2 hn2 c2 hc2
  constructor
  · rw [← h2, heq, g2]
  · rw [← h3, heq, g3]

/-- Claim C7 witness: for node 1 and command 3 the arbitration id is 35,
below 2^11, and shifting and masking recover node and command. -/
theorem claim_C7_witness :
    arbId 1 3 < 2048 ∧ arbId 1 3 >>> 5 = 1 ∧ arbId 1 3 % 32 = 3 := by
  have h := claim_C7_arbitration_id_bijective 1 3 (by norm_num) (by norm_num)
  exact ⟨h.2.1, h.2.2.1, h.2.2.2.1⟩

theorem forall_stream_hb_state (can_id : Nat) :
    ∀ s : List Event,
      (s.all fun ev => match ev.2 with
        | some m => !(decide (m.arbitration_id = can_id)) ||
            (match m.data[4]? with
             | some st => decide (st ≠ 1)
             | none => false)
        | none => true) = true →
      ∀ dt m, (dt, some m) ∈ s → m.arbitration_id = can_id →
        ∃ st, m.data[4]? = some st ∧ st ≠ 1 := by
  intro s
  induction s with
  | nil =>
    intro _ dt m hm
    simp at hm
  | cons ev rest ih =>
    intro hall dt m hm hid
    rw [List.all_cons, Bool.and_eq_true] at hall
    rcases List.mem_cons.1 hm with h | h
    · have hc := hall.1
      rw [← h] at hc
      have hc2 : (!(decide (m.arbitration_id = can_id)) ||
          (match m.data[4]? with
           | some st => decide (st ≠ 1)
           | none => false)) = true := hc
      rcases hst : m.data[4]? with - | st
      · rw [hst, hid] at hc2
        simp at hc2
      · refine ⟨st, rfl, ?_⟩
        rw [hst, hid] at hc2
        simpa using hc2
    · exact ih hall.2 dt m h hid

/-- Claim C3: the calibration pollers (motor kind with its 15-second
deadline, encoder-offset kind with its 20-second deadline) succeed exactly
when a heartbeat sample with axis state 1 (Idle) is observed before the
deadline, and then send only the start command; when the stream carries no
Idle sample they fail after the deadline and send exactly one corrective
set-axis-state(Idle) command after the start command. -/
theorem claim_C3_calibration_poller (node : Nat) (w : World) :
    ((∀ dt m, (dt, some m) ∈ w.stream → m.arbitration_id = arbId node 0x001 →
        ∃ st, m.data[4]? = some st ∧ st ≠ 1) →
      (test_motor_calibration node w).1 = Except.ok false ∧
      (test_motor_calibration node w).2.sent =
        w.sent ++ [setStateFrame node 4, setStateFrame node 1] ∧
      (test_encoder_calibration node w).1 = Except.ok false ∧
      (test_encoder_calibration node w).2.sent =
        w.sent ++ [setStateFrame node 7, setStateFrame node 1]) ∧
    (∀ (pre : List Event) (dt : Nat) (m : Msg) (rest : List Event),
      w.stream = pre ++ (dt, some m) :: rest →
      (∀ dt0 m0, (dt0, some m0) ∈ pre → m0.arbitration_id = arbId node 0x001 →
        ∃ st, m0.data[4]? = some st ∧ st ≠ 1) →
      m.arbitration_id = arbId node 0x001 →
      m.data[4]? = some 1 →
      (sumDt pre < 15 →
        (test_motor_calibration node w).1 = Except.ok true ∧
        (test_motor_calibration node w).2.sent = w.sent ++ [setStateFrame node 4]) ∧
      (sumDt pre < 20 →
        (test_encoder_calibration node w).1 = Except.ok true ∧
        (test_encoder_calibration node w).2.sent = w.sent ++ [setStateFrame node 7])) := by
  constructor
  · intro hwf
    obtain ⟨m1, m2⟩ := test_motor_calibration_timeout node w hwf
    obtain ⟨e1, e2⟩ := test_encoder_calibration_timeout node w hwf
    exact ⟨m1, m2, e1, e2⟩
  · intro pre dt m rest hs hpre hm hidle
    constructor
    · intro ht
      obtain ⟨a, b, -⟩ :=
        test_motor_calibration_success node w pre dt m rest hs hpre hm hidle ht
      exact ⟨a, b⟩
    · intro ht
      obtain ⟨a, b, -⟩ :=
        test_encoder_calibration_success node w pre dt m rest hs hpre hm hidle ht
      exact ⟨a, b⟩

/-- Claim C3 witness: a stream of twenty in-progress (state 4) samples makes
the motor poller fail with exactly one corrective Idle command, and the
sample sequence [state 4, state 4, state 1] within the deadline makes it
succeed with no corrective command. -/
theorem claim_C3_witness :
    (test_motor_calibration 1
        ⟨0, List.replicate 20 (1, some ⟨33, [0, 0, 0, 0, 4, 0, 0, 0], false⟩), []⟩).1 =
      Except.ok false ∧
    (test_motor_calibration 1
        ⟨0, List.replicate 20 (1, some ⟨33, [0, 0, 0, 0, 4, 0, 0, 0], false⟩), []⟩).2.sent =
      [setStateFrame 1 4, setStateFrame 1 1] ∧
    (test_motor_calibration 1
        ⟨0, [(1, some ⟨33, [0, 0, 0, 0, 4, 0, 0, 0], false⟩),
             (1, some ⟨33, [0, 0, 0, 0, 4, 0, 0, 0], false⟩),
             (1, some ⟨33, [0, 0, 0, 0, 1, 0, 0, 0], false⟩)], []⟩).1 =
      Except.ok true ∧
    (test_motor_calibration 1
        ⟨0, [(1, some ⟨33, [0, 0, 0, 0, 4, 0, 0, 0], false⟩),
             (1, some ⟨33, [0, 0, 0, 0, 4, 0, 0, 0], false⟩),
             (1, some ⟨33, [0, 0, 0, 0, 1, 0, 0, 0], false⟩)], []⟩).2.sent =
      [setStateFrame 1 4] := by
  have h1 := (claim_C3_calibration_poller 1
    ⟨0, List.replicate 20 (1, some ⟨33, [0, 0, 0, 0, 4, 0, 0, 0], false⟩), []⟩).1
    (forall_stream_hb_state (arbId 1 1) _ (by decide))
  have h2 := ((claim_C3_calibration_poller 1
    ⟨0, [(1, some ⟨33, [0, 0, 0, 0, 4, 0, 0, 0], false⟩),
         (1, some ⟨33, [0, 0, 0, 0, 4, 0, 0, 0], false⟩),
         (1, some ⟨33, [0, 0, 0, 0, 1, 0, 0, 0], false⟩)], []⟩).2
    [(1, some ⟨33, [0, 0, 0, 0, 4, 0, 0, 0], false⟩),
     (1, some ⟨33, [0, 0, 0, 0, 4, 0, 0, 0], false⟩)] 1
    ⟨33, [0, 0, 0, 0, 1, 0, 0, 0], false⟩ [] rfl
    (forall_stream_hb_state (arbId 1 1) _ (by decide)) (by decide) rfl).1
    (by norm_num)
  exact ⟨h1.1, by simpa using h1.2.1, h2.1, by simpa using h2.2⟩

/-- Specification predicate for Claim C8: a frame a client with the given
node id is allowed to put on the bus — non-extended, arbitration id derived
from the node id and a catalogue command id, eight payload bytes. -/
def goodFrame (node : Nat) (m : Msg) : Prop :=
  m.extended = false ∧ m.data.length = 8 ∧
    ∃ cmd_id, cmd_id ∈ ([0x003, 0x007, 0x009, 0x016, 0x01F] : List Nat) ∧
      m.arbitration_id = arbId node cmd_id

theorem goodFrame_trans {node : Nat} {w1 w2 w3 : World}
    (h12 : ∀ m ∈ w2.sent, m ∈ w1.sent ∨ goodFrame node m)
    (h23 : ∀ m ∈ w3.sent, m ∈ w2.sent ∨ goodFrame node m) :
    ∀ m ∈ w3.sent, m ∈ w1.sent ∨ goodFrame node m := by
  intro m hm
  rcases h23 m hm with h | h
  · exact h12 m h
  · exact Or.inr h

theorem get_heartbeat_good (node : Nat) (w : World) :
    ∀ m ∈ (get_heartbeat node w).2.sent, m ∈ w.sent ∨ goodFrame node m := by
  intro m hm
  rw [get_heartbeat_sent] at hm
  exact Or.inl hm

theorem get_errors_good (node error_type : Nat) (w : World) :
    ∀ m ∈ (get_errors node error_type w).2.sent, m ∈ w.sent ∨ goodFrame node m := by
  intro m hm
  rw [get_errors_sent] at hm
  rcases List.mem_append.1 hm with h | h
  · exact Or.inl h
  · right
    rw [List.mem_singleton] at h
    subst h
    exact ⟨rfl, rfl, 0x003, by norm_num, rfl⟩

theorem get_encoder_estimates_good (node : Nat) (w : World) :
    ∀ m ∈ (get_encoder_estimates node w).2.sent, m ∈ w.sent ∨ goodFrame node m := by
  intro m hm
  rw [get_encoder_estimates_sent] at hm
  rcases List.mem_append.1 hm with h | h
  · exact Or.inl h
  · right
    rw [List.mem_singleton] at h
    subst h
    exact ⟨rfl, rfl, 0x009, by norm_num, rfl⟩

theorem test_motor_calibration_good (node : Nat) (w : World) :
    ∀ m ∈ (test_motor_calibration node w).2.sent, m ∈ w.sent ∨ goodFrame node m := by
  intro m hm
  have hset : ∀ st, goodFrame node (setStateFrame node st) :=
    fun st => ⟨rfl, rfl, 0x007, by norm_num, rfl⟩
  rcases hres : (test_motor_calibration node w).1 with e | b
  · rw [(test_motor_calibration_sent node w).2.2 e hres] at hm
    rcases List.mem_append.1 hm with h | h
    · exact Or.inl h
    · rw [List.mem_singleton] at h
      subst h
      exact Or.inr (hset 4)
  · cases b
    · rw [(test_motor_calibration_sent node w).2.1 hres] at hm
      rcases List.mem_append.1 hm with h | h
      · exact Or.inl h
      · rcases List.mem_cons.1 h with h2 | h2
        · subst h2
          exact Or.inr (hset 4)
        · rw [List.mem_singleton] at h2
          subst h2
          exact Or.inr (hset 1)
    · rw [(test_motor_calibration_sent node w).1 hres] at hm
      rcases List.mem_append.1 hm with h | h
      · exact Or.inl h
      · rw [List.mem_singleton] at h
        subst h
        exact Or.inr (hset 4)

theorem test_encoder_calibration_good (node : Nat) (w : World) :
    ∀ m ∈ (test_encoder_calibration node w).2.sent, m ∈ w.sent ∨ goodFrame node m := by
  intro m hm
  have hset : ∀ st, goodFrame node (setStateFrame node st) :=
    fun st => ⟨rfl, rfl, 0x007, by norm_num, rfl⟩
  rcases hres : (test_encoder_calibration node w).1 with e | b
  · rw [(test_encoder_calibration_sent node w).2.2 e hres] at hm
    rcases List.mem_append.1 hm with h | h
    · exact Or.inl h
    · rw [List.mem_singleton] at h
      subst h
      exact Or.inr (hset 7)
  · cases b
    · rw [(test_encoder_calibration_sent node w).2.1 hres] at hm
      rcases List.mem_append.1 hm with h | h
      · exact Or.inl h
      · rcases List.mem_cons.1 h with h2 | h2
        · subst h2
          exact Or.inr (hset 7)
        · rw [List.mem_singleton] at h2
          subst h2
          exact Or.inr (hset 1)
    · rw [(test_encoder_calibration_sent node w).1 hres] at hm
      rcases List.mem_append.1 hm with h | h
      · exact Or.inl h
      · rw [List.mem_singleton] at h
        subst h
        exact Or.inr (hset 7)

theorem save_and_reboot_good (node : Nat) (w : World) :
    ∀ m ∈ (save_and_reboot node w).sent, m ∈ w.sent ∨ goodFrame node m := by
  intro m hm
  rw [save_and_reboot_sent] at hm
  rcases List.mem_append.1 hm with h | h
  · exact Or.inl h
  · rcases List.mem_cons.1 h with h2 | h2
    · subst h2
      exact Or.inr ⟨rfl, rfl, 0x01F, by norm_num, rfl⟩
    · rw [List.mem_singleton] at h2
      subst h2
      exact Or.inr ⟨rfl, rfl, 0x016, by norm_num, rfl⟩

/-- Claim C8: every frame a full diagnostic run adds to the sent log is a
non-extended frame whose arbitration id is `(node << 5) | cmd_id` for a
command id of the client's catalogue, with exactly eight payload bytes
(zero-padded by `send_command` when the command carries no data). -/
theorem claim_C8_sent_frames_wellformed (node : Nat) (w : World) :
    ∀ m ∈ (full_diagnostic node w).2.sent, m ∈ w.sent ∨ goodFrame node m := by
  have g1 := get_heartbeat_good node w
  have g2 := goodFrame_trans g1 (get_errors_good node 0 (get_heartbeat node w).2)
  have g3 := goodFrame_trans g2 (get_errors_good node 1
    (get_errors node 0 (get_heartbeat node w).2).2)
  have g4 := goodFrame_trans g3 (get_errors_good node 4
    (get_errors node 1 (get_errors node 0 (get_heartbeat node w).2).2).2)
  have g5 := goodFrame_trans g4 (get_encoder_estimates_good node
    (get_errors node 4 (get_errors node 1
      (get_errors node 0 (get_heartbeat node w).2).2).2).2)
  have g6 := goodFrame_trans g5 (test_motor_calibration_good node
    (get_encoder_estimates node (get_errors node 4 (get_errors node 1
      (get_errors node 0 (get_heartbeat node w).2).2).2).2).2)
  have g7 := goodFrame_trans g6 (test_encoder_calibration_good node
    (test_motor_calibration node (get_encoder_estimates node
      (get_errors node 4 (get_errors node 1
        (get_errors node 0 (get_heartbeat node w).2).2).2).2).2).2)
  have g8 := goodFrame_trans g7 (save_and_reboot_good node
    (test_encoder_calibration node (test_motor_calibration node
      (get_encoder_estimates node (get_errors node 4 (get_errors node 1
        (get_errors node 0 (get_heartbeat node w).2).2).2).2).2).2).2)
  intro m
  simp only [full_diagnostic]
  split
  · exact fun hm => g1 m hm
  · exact fun hm => g1 m hm
  · split
    · exact fun hm => g2 m hm
    · split
      · exact fun hm => g3 m hm
      · split
        · exact fun hm => g4 m hm
        · split
          · exact fun hm => g5 m hm
          · split
            · exact fun hm => g6 m hm
            · split
              · exact fun hm => g7 m hm
              · exact fun hm => g8 m hm

theorem get_errors_sent_mono (node error_type : Nat) (w : World) :
    ∀ m ∈ w.sent, m ∈ (get_errors node error_type w).2.sent := by
  intro m hm
  rw [get_errors_sent]
  exact List.mem_append_left _ hm

theorem get_encoder_estimates_sent_mono (node : Nat) (w : World) :
    ∀ m ∈ w.sent, m ∈ (get_encoder_estimates node w).2.sent := by
  intro m hm
  rw [get_encoder_estimates_sent]
  exact List.mem_append_left _ hm

theorem save_and_reboot_sent_mono (node : Nat) (w : World) :
    ∀ m ∈ w.sent, m ∈ (save_and_reboot node w).sent := by
  intro m hm
  rw [save_and_reboot_sent]
  exact List.mem_append_left _ hm

theorem test_motor_calibration_sent_mono (node : Nat) (w : World) :
    ∀ m ∈ w.sent, m ∈ (test_motor_calibration node w).2.sent := by
  intro m hm
  rcases hres : (test_motor_calibration node w).1 with e | b
  · rw [(test_motor_calibration_sent node w).2.2 e hres]
    exact List.mem_append_left _ hm
  · cases b
    · rw [(test_motor_calibration_sent node w).2.1 hres]
      exact List.mem_append_left _ hm
    · rw [(test_motor_calibration_sent node w).1 hres]
      exact List.mem_append_left _ hm

theorem test_encoder_calibration_sent_mono (node : Nat) (w : World) :
    ∀ m ∈ w.sent, m ∈ (test_encoder_calibration node w).2.sent := by
  intro m hm
  rcases hres : (test_encoder_calibration node w).1 with e | b
  · rw [(test_encoder_calibration_sent node w).2.2 e hres]
    exact List.mem_append_left _ hm
  · cases b
    · rw [(test_encoder_calibration_sent node w).2.1 hres]
      exact List.mem_append_left _ hm
    · rw [(test_encoder_calibration_sent node w).1 hres]
      exact List.mem_append_left _ hm

theorem full_diagnostic_sends_first_error_query (node : Nat) (w : World)
    (v : Nat × Nat) (hhb : (get_heartbeat node w).1 = Except.ok (some v)) :
    errQueryFrame node 0 ∈ (full_diagnostic node w).2.sent := by
  have h0 : errQueryFrame node 0 ∈
      (get_errors node 0 (get_heartbeat node w).2).2.sent := by
    rw [get_errors_sent]
    exact List.mem_append_right _ (List.mem_singleton.2 rfl)
  have h1 := get_errors_sent_mono node 1 _ _ h0
  have h2 := get_errors_sent_mono node 4 _ _ h1
  have h3 := get_encoder_estimates_sent_mono node _ _ h2
  have h4 := test_motor_calibration_sent_mono node _ _ h3
  have h5 := test_encoder_calibration_sent_mono node _ _ h4
  have h6 := save_and_reboot_sent_mono node _ _ h5
  simp only [full_diagnostic, hhb]
  split
  · exact h0
  · split
    · exact h1
    · split
      · exact h2
      · split
        · exact h3
        · split
          · exact h4
          · split
            · exact h5
            · exact h6

/-- Claim C8 witness: in a run whose stream carries one heartbeat and then
nothing, the get-errors request frame the client sent is in the allowed
shape. -/
theorem claim_C8_witness :
    errQueryFrame 1 0 ∈ ([] : List Msg) ∨ goodFrame 1 (errQueryFrame 1 0) :=
  claim_C8_sent_frames_wellformed 1
    ⟨0, [(0, some ⟨33, [0, 0, 0, 0, 1, 0, 0, 0], false⟩)], []⟩
    (errQueryFrame 1 0)
    (full_diagnostic_sends_first_error_query 1
      ⟨0, [(0, some ⟨33, [0, 0, 0, 0, 1, 0, 0, 0], false⟩)], []⟩ (1, 0) rfl)

theorem test_motor_calibration_sent_if (node : Nat) (w : World) (b : Bool)
    (h : (test_motor_calibration node w).1 = Except.ok b) :
    (test_motor_calibration node w).2.sent =
      w.sent ++ [setStateFrame node 4] ++
        (if b then [] else [setStateFrame node 1]) := by
  cases b
  · simpa using (test_motor_calibration_sent node w).2.1 h
  · simpa using (test_motor_calibration_sent node w).1 h

theorem test_encoder_calibration_sent_if (node : Nat) (w : World) (b : Bool)
    (h : (test_encoder_calibration node w).1 = Except.ok b) :
    (test_encoder_calibration node w).2.sent =
      w.sent ++ [setStateFrame node 7] ++
        (if b then [] else [setStateFrame node 1]) := by
  cases b
  · simpa using (test_encoder_calibration_sent node w).2.1 h
  · simpa using (test_encoder_calibration_sent node w).1 h

/-- Claim C1 counterexample: on a run whose heartbeat wait times out the
orchestrator returns immediately and sends no frame at all, so the error
queries, encoder query, calibrations and save-and-reboot do not run, against
the claim that every step always runs. -/
theorem claim_C1_counterexample :
    (full_diagnostic 1 ⟨0, [], []⟩).1 = Except.ok false ∧
    (full_diagnostic 1 ⟨0, [], []⟩).2.sent = [] := ⟨rfl, rfl⟩

/-- Claim C1 (amended): when the heartbeat wait reports no response the
orchestrator returns overall failure immediately, running none of the
subsequent steps; when a heartbeat arrives, every subsequent step runs
regardless of individual step failures — all their command frames appear on
the bus in order — and the overall verdict is the conjunction of the three
zero-error checks and the two calibration outcomes. -/
theorem claim_C1_orchestrator_fixed_sequence (node : Nat) (w : World) :
    ((get_heartbeat node w).1 = Except.ok none →
      full_diagnostic node w = (Except.ok false, (get_heartbeat node w).2) ∧
      (full_diagnostic node w).2.sent = w.sent) ∧
    (∀ v, (get_heartbeat node w).1 = Except.ok (some v) →
      ∀ b, (full_diagnostic node w).1 = Except.ok b →
      ∃ system_error motor_error encoder_error : Nat,
      ∃ motor_ok encoder_ok : Bool,
        b = (system_error == 0 && motor_error == 0 && encoder_error == 0 &&
          motor_ok && encoder_ok) ∧
        (full_diagnostic node w).2.sent = w.sent ++
          [errQueryFrame node 0, errQueryFrame node 1, errQueryFrame node 4,
            encQueryFrame node, setStateFrame node 4] ++
          (if motor_ok then [] else [setStateFrame node 1]) ++
          ([setStateFrame node 7] ++
            (if encoder_ok then [] else [setStateFrame node 1]) ++
            [saveFrame node, rebootFrame node])) := by
  constructor
  · intro h
    constructor
    · simp only [full_diagnostic, h]
    · simp only [full_diagnostic, h]
      exact get_heartbeat_sent node w
  · intro v hhb b hb2
    rcases h0 : (get_errors node 0 (get_heartbeat node w).2).1 with e | se
    · simp only [full_diagnostic, hhb, h0] at hb2
      exact absurd hb2 (by simp)
    rcases h1 : (get_errors node 1
        (get_errors node 0 (get_heartbeat node w).2).2).1 with e | me
    · simp only [full_diagnostic, hhb, h0, h1] at hb2
      exact absurd hb2 (by simp)
    rcases h4 : (get_errors node 4 (get_errors node 1
        (get_errors node 0 (get_heartbeat node w).2).2).2).1 with e | ee
    · simp only [full_diagnostic, hhb, h0, h1, h4] at hb2
      exact absurd hb2 (by simp)
    rcases henc : (get_encoder_estimates node (get_errors node 4 (get_errors node 1
        (get_errors node 0 (get_heartbeat node w).2).2).2).2).1 with e | pv
    · simp only [full_diagnostic, hhb, h0, h1, h4, henc] at hb2
      exact absurd hb2 (by simp)
    rcases hmot : (test_motor_calibration node (get_encoder_estimates node
        (get_errors node 4 (get_errors node 1
          (get_errors node 0 (get_heartbeat node w).2).2).2).2).2).1 with e | mok
    · simp only [full_diagnostic, hhb, h0, h1, h4, henc, hmot] at hb2
      exact absurd hb2 (by simp)
    rcases hencc : (test_encoder_calibration node (test_motor_calibration node
        (get_encoder_estimates node (get_errors node 4 (get_errors node 1
          (get_errors node 0 (get_heartbeat node w).2).2).2).2).2).2).1 with e | eok
    · simp only [full_diagnostic, hhb, h0, h1, h4, henc, hmot, hencc] at hb2
      exact absurd hb2 (by simp)
    refine ⟨se, me, ee, mok, eok, ?_, ?_⟩
    · simp only [full_diagnostic, hhb, h0, h1, h4, henc, hmot, hencc] at hb2
      injection hb2 with hb2
      exact hb2.symm
    · simp only [full_diagnostic, hhb, h0, h1, h4, henc, hmot, hencc]
      rw [save_and_reboot_sent, test_encoder_calibration_sent_if _ _ eok hencc,
        test_motor_calibration_sent_if _ _ mok hmot, get_encoder_estimates_sent,
        get_errors_sent, get_errors_sent, get_errors_sent, get_heartbeat_sent]
      simp [List.append_assoc]

/-- Claim C1 witness: with an empty stream the heartbeat times out and the
orchestrator returns failure at once, with nothing sent. -/
theorem claim_C1_witness :
    full_diagnostic 1 ⟨0, [], []⟩ = (Except.ok false, ⟨3, [], []⟩) ∧
    (full_diagnostic 1 ⟨0, [], []⟩).2.sent = [] := by
  have h := (claim_C1_orchestrator_fixed_sequence 1 ⟨0, [], []⟩).1 rfl
  exact ⟨h.1.trans (by rfl), h.2⟩
